import Mathlib

/-!
Verification of the Blinko MCP server (tool dispatcher in `src/index.ts` and
`BlinkoClient` in `src/blinko.ts`) against its natural-language specification.

The TypeScript code is shallowly embedded: JSON values and the dynamic
JavaScript values flowing through the dispatcher are explicit inductive types,
the ECMAScript coercions the code relies on (`Number(...)`, `String(...)`,
truthiness, strict equality against numeric literals, `Date` construction and
`toLocaleString`) are modelled as executable functions, and every remote
operation of `BlinkoClient` is a pure function from its parameters and the
(stubbed) HTTP response to the list of HTTP requests it issues together with
its `Except`-style outcome.  Machine numbers are modelled as rationals
(JavaScript numbers are floats, but no property below depends on rounding),
with NaN and the infinities tracked explicitly.
-/

namespace Blinko

/-- JSON values, as produced by `JSON.stringify` / consumed by `resp.json()`.
Object fields keep their insertion order, as `JSON.stringify` does. -/
inductive Json where
  | null : Json
  | bool (b : Bool) : Json
  | num (q : ℚ) : Json
  | str (s : String) : Json
  | arr (elems : List Json) : Json
  | obj (fields : List (String × Json)) : Json

/-- JavaScript numbers: NaN, the two infinities, or a finite value
(modelled as a rational; no claim depends on float rounding). -/
inductive JsNumber where
  | nan : JsNumber
  | posInf : JsNumber
  | negInf : JsNumber
  | fin (q : ℚ) : JsNumber
deriving DecidableEq

/-- Dynamic JavaScript values as they flow through the dispatcher: `undefined`
(a missing argument), or a JSON-derived value. -/
inductive JsValue where
  | undefined : JsValue
  | null : JsValue
  | bool (b : Bool) : JsValue
  | num (n : JsNumber) : JsValue
  | str (s : String) : JsValue
  | arr (elems : List Json) : JsValue
  | obj (fields : List (String × Json)) : JsValue

/-- The JavaScript value of a JSON value (property reads and argument
destructuring yield these). -/
def jsValueOfJson : Json → JsValue
  | .null => .null
  | .bool b => .bool b
  | .num q => .num (.fin q)
  | .str s => .str s
  | .arr xs => .arr xs
  | .obj fs => .obj fs

/-- `JSON.stringify` of a JavaScript number: NaN and the infinities serialize
as `null`. -/
def jsonOfNumber : JsNumber → Json
  | .nan => .null
  | .posInf => .null
  | .negInf => .null
  | .fin q => .num q

/-- Decimal rendering of a rational in a template literal.  Integers render as
in JavaScript; the rendering of non-integral values is simplified (no claim
depends on it). -/
def ratToJsString (q : ℚ) : String :=
  if q.den = 1 then toString q.num else toString q

/-- Template-literal rendering of a JavaScript number. -/
def jsNumberToString : JsNumber → String
  | .nan => "NaN"
  | .posInf => "Infinity"
  | .negInf => "-Infinity"
  | .fin q => ratToJsString q

/-- Rendering of one array element under `Array.prototype.toString`:
`null` renders empty, strings verbatim, numbers in decimal.  Nested arrays
are simplified (no claim exercises them). -/
def jsonElemStr : Json → String
  | .null => ""
  | .bool b => cond b "true" "false"
  | .num q => ratToJsString q
  | .str s => s
  | .arr _ => ""
  | .obj _ => "[object Object]"

/-- ECMAScript `String(x)` / template-literal coercion. -/
def jsToString : JsValue → String
  | .undefined => "undefined"
  | .null => "null"
  | .bool b => cond b "true" "false"
  | .num n => jsNumberToString n
  | .str s => s
  | .arr xs => String.intercalate "," (xs.map jsonElemStr)
  | .obj _ => "[object Object]"

/-- Digit value of an ASCII digit character. -/
def digitVal (c : Char) : ℕ := c.toNat - '0'.toNat

/-- The natural number denoted by a list of ASCII digits (0 for the empty
list, as in `Number(".5")`). -/
def natOfDigits (cs : List Char) : ℕ :=
  cs.foldl (fun acc c => acc * 10 + digitVal c) 0

/-- Parse an unsigned decimal literal `digits [ "." digits ]`.  Exponent and
hex forms of the ECMAScript grammar are not modelled (no claim uses them). -/
def parseDec (cs : List Char) : Option ℚ :=
  let intPart := cs.takeWhile Char.isDigit
  let rest := cs.drop intPart.length
  match rest with
  | [] =>
    if intPart.isEmpty then none
    else some (natOfDigits intPart : ℚ)
  | '.' :: frac =>
    if frac.all Char.isDigit && !(intPart.isEmpty && frac.isEmpty) then
      some ((natOfDigits intPart : ℚ) + (natOfDigits frac : ℚ) / (10 : ℚ) ^ frac.length)
    else none
  | _ => none

/-- Parse an optionally signed decimal literal. -/
def parseSignedDec : List Char → Option ℚ
  | '+' :: rest => parseDec rest
  | '-' :: rest => (parseDec rest).map Neg.neg
  | cs => parseDec cs

/-- Whitespace trimming from both ends (`String.prototype.trim`). -/
def jsTrim (s : String) : String :=
  String.mk (((s.data.dropWhile Char.isWhitespace).reverse.dropWhile
    Char.isWhitespace).reverse)

/-- ECMAScript string-to-number conversion: trimmed empty string is 0,
`Infinity` forms are infinite, decimal literals parse, all else is NaN. -/
def jsStrToNumber (s : String) : JsNumber :=
  let t := jsTrim s
  if t = "" then .fin 0
  else if t = "Infinity" || t = "+Infinity" then .posInf
  else if t = "-Infinity" then .negInf
  else match parseSignedDec t.data with
    | some q => .fin q
    | none => .nan

/-- ECMAScript `Number(x)`. Arrays convert through their joined string form;
plain objects are NaN. -/
def jsToNumber : JsValue → JsNumber
  | .undefined => .nan
  | .null => .fin 0
  | .bool b => .fin (cond b 1 0)
  | .num n => n
  | .str s => jsStrToNumber s
  | .arr xs => jsStrToNumber (String.intercalate "," (xs.map jsonElemStr))
  | .obj _ => .nan

/-- Truthiness of a JavaScript number: NaN and 0 are falsy. -/
def jsNumTruthy : JsNumber → Bool
  | .nan => false
  | .posInf => true
  | .negInf => true
  | .fin q => !(decide (q = 0))

/-- ECMAScript truthiness. -/
def jsTruthy : JsValue → Bool
  | .undefined => false
  | .null => false
  | .bool b => b
  | .num n => jsNumTruthy n
  | .str s => !(decide (s = ""))
  | .arr _ => true
  | .obj _ => true

/-- Whether a value is `undefined` (the `x !== undefined` checks). -/
def JsValue.isUndef : JsValue → Bool
  | .undefined => true
  | _ => false

/-- Strict equality `v === q` against a numeric literal. -/
def jsIsNumLit (v : JsValue) (q : ℚ) : Bool :=
  match v with
  | .num (.fin r) => decide (r = q)
  | _ => false

/-- Strict equality `v === false` against the boolean literal `false`. -/
def jsIsFalse : JsValue → Bool
  | .bool false => true
  | _ => false

/-! ### Date model

`new Date(x).toLocaleString()` never throws: per ECMA-262 an unparseable
string yields an invalid `Date` (time value NaN), and per ECMA-402
`toLocaleString` on such a date returns the string `"Invalid Date"`.
The parser is modelled on the ISO subset ECMA-262 guarantees
(`YYYY-MM-DD`, optionally followed by a `T` time part, whose contents are
not further validated here); implementation-defined extensions are modelled
as invalid, and no claim depends on them. -/

/-- Tail of an ISO date string after the `YYYY-MM-DD` prefix: empty or a
`T`-separated time part (not further validated in this model). -/
def isoTail : List Char → Bool
  | [] => true
  | 'T' :: _ => true
  | _ => false

/-- Whether a string parses as a date under the modelled ISO subset of the
ECMAScript date parser. -/
def isIsoDateString (s : String) : Bool :=
  match s.data with
  | y1 :: y2 :: y3 :: y4 :: '-' :: m1 :: m2 :: '-' :: d1 :: d2 :: rest =>
    (y1.isDigit && y2.isDigit && y3.isDigit && y4.isDigit &&
      m1.isDigit && m2.isDigit && d1.isDigit && d2.isDigit) && isoTail rest
  | _ => false

/-- Whether `new Date(v)` constructs a valid date: strings go through the
(modelled) parser, finite numbers are epoch offsets, `null` and booleans
coerce to numbers, `undefined` and NaN give an invalid date.  Arrays convert
through their joined string form; plain objects are invalid. -/
def jsDateValid : JsValue → Bool
  | .str s => isIsoDateString s
  | .num (.fin _) => true
  | .num _ => false
  | .null => true
  | .bool _ => true
  | .undefined => false
  | .arr xs => isIsoDateString (String.intercalate "," (xs.map jsonElemStr))
  | .obj _ => false

/-- `toLocaleString` on a valid date.  The exact text is locale- and
implementation-defined; it is modelled as the argument's string form behind a
marker, and no claim depends on its value, only on it being produced instead
of an exception. -/
def jsLocaleDisplay (v : JsValue) : String :=
  "(local) " ++ jsToString v

/-- The dispatcher's `formatDate` helper (`src/index.ts`):
`try { return new Date(dateStr).toLocaleString(); } catch { return dateStr; }`.
Neither the `Date` constructor nor `toLocaleString` throws, so the function
is total and the catch branch never runs: an invalid date renders as the
string `"Invalid Date"`. -/
def formatDate (v : JsValue) : String :=
  if jsDateValid v then jsLocaleDisplay v else "Invalid Date"

/-! ### HTTP model

Each client operation performs exactly one `fetch`.  It is modelled as a pure
function taking the stubbed transport's response and returning the list of
requests issued (empty when the operation fails before any network call)
together with its outcome: `Except.error` models a thrown `Error` carrying
the message. -/

/-- One HTTP request as built by `BlinkoClient`. -/
structure HttpRequest where
  method : String
  url : String
  headers : List (String × String)
  body : Option Json

/-- The stubbed transport's response: status code, raw body text
(`resp.text()`), and decoded body (`resp.json()`). -/
structure HttpResponse where
  status : ℕ
  text : String
  json : Json

/-- `resp.ok`: status in the inclusive range 200–299. -/
def respOk (r : HttpResponse) : Bool :=
  decide (200 ≤ r.status ∧ r.status ≤ 299)

/-- Headers of the JSON-body requests:
`Content-Type: application/json` and the bearer credential. -/
def jsonHeaders (apiKey : String) : List (String × String) :=
  [("Content-Type", "application/json"), ("Authorization", "Bearer " ++ apiKey)]

/-- Headers of the body-less requests: the bearer credential alone. -/
def authHeaders (apiKey : String) : List (String × String) :=
  [("Authorization", "Bearer " ++ apiKey)]

/-- The generic error message of the client's v1 endpoints:
`request failed with status ${resp.status}: ${errorText}`. -/
def genericErrMsg (resp : HttpResponse) : String :=
  "request failed with status " ++ Nat.repr resp.status ++ ": " ++ resp.text

/-- Field lookup in a JSON object (`none` for a missing field or a
non-object). -/
def jsonField (j : Json) (key : String) : Option Json :=
  match j with
  | .obj fs => fs.lookup key
  | _ => none

/-- Property lookup `note.key` on a decoded JSON value: a missing field or a
non-object reads as `undefined`. -/
def jget (j : Json) (key : String) : JsValue :=
  match j with
  | .obj fs =>
    match fs.lookup key with
    | some v => jsValueOfJson v
    | none => .undefined
  | _ => .undefined

/-! ### BlinkoClient (`src/blinko.ts`) -/

/-- Whether a string starts with the given literal (JavaScript
`String.prototype.startsWith`). -/
def strStartsWith (s pre : String) : Bool :=
  pre.data.isPrefixOf s.data

/-- Removal of a single trailing slash (`domain.replace(/\/$/, '')`). -/
def stripTrailingSlash (s : String) : String :=
  if s.data.getLast? = some '/' then String.mk s.data.dropLast else s

/-- `BlinkoClient.normalizeDomain`: reject the empty domain, strip one
trailing slash, pass a `http://`- or `https://`-prefixed value through, and
prefix everything else with `https://`. -/
def normalizeDomain (domain : String) : Except String String :=
  if domain = "" then .error "Domain cannot be empty"
  else
    let d := stripTrailingSlash domain
    if strStartsWith d "http://" || strStartsWith d "https://" then .ok d
    else .ok ("https://" ++ d)

/-- The client: normalized base URL plus credential. -/
structure BlinkoClient where
  baseUrl : String
  apiKey : String

/-- `SearchNotesParams` of `src/blinko.ts`; optional fields are `Option`s,
`searchText` is required. -/
structure SearchNotesParams where
  size : Option JsNumber
  type : Option ℚ
  isArchived : Option Bool
  isRecycle : Option Bool
  searchText : String
  isUseAiQuery : Option Bool
  startDate : Option (Option String)
  endDate : Option (Option String)
  hasTodo : Option Bool

/-- JSON form of a nullable string parameter. -/
def optStrJson : Option String → Json
  | none => .null
  | some s => .str s

/-- The search request body, with the client's `??` defaults applied
(size 5, type -1, flags false, AI query true, date bounds null). -/
def searchBody (p : SearchNotesParams) : Json :=
  .obj [("size", jsonOfNumber (p.size.getD (.fin 5))),
        ("type", .num (p.type.getD (-1))),
        ("isArchived", .bool (p.isArchived.getD false)),
        ("isRecycle", .bool (p.isRecycle.getD false)),
        ("searchText", .str p.searchText),
        ("isUseAiQuery", .bool (p.isUseAiQuery.getD true)),
        ("startDate", optStrJson (p.startDate.getD none)),
        ("endDate", optStrJson (p.endDate.getD none)),
        ("hasTodo", .bool (p.hasTodo.getD false))]

/-- The request `searchNotes` issues. -/
def searchRequestOf (c : BlinkoClient) (p : SearchNotesParams) : HttpRequest :=
  { method := "POST", url := c.baseUrl ++ "/api/v1/note/list",
    headers := jsonHeaders c.apiKey, body := some (searchBody p) }

/-- `BlinkoClient.searchNotes`: one POST to `/api/v1/note/list`; a 2xx
response decodes as the result, anything else throws the generic message. -/
def searchNotes (c : BlinkoClient) (p : SearchNotesParams) (resp : HttpResponse) :
    List HttpRequest × Except String Json :=
  let req := searchRequestOf c p
  if respOk resp then ([req], .ok resp.json)
  else ([req], .error (genericErrMsg resp))

/-- The request `getDailyReviewNotes` issues. -/
def dailyReviewRequestOf (c : BlinkoClient) : HttpRequest :=
  { method := "GET", url := c.baseUrl ++ "/api/v1/note/daily-review-list",
    headers := authHeaders c.apiKey, body := none }

/-- `BlinkoClient.getDailyReviewNotes`: one GET to
`/api/v1/note/daily-review-list`. -/
def getDailyReviewNotes (c : BlinkoClient) (resp : HttpResponse) :
    List HttpRequest × Except String Json :=
  let req := dailyReviewRequestOf c
  if respOk resp then ([req], .ok resp.json)
  else ([req], .error (genericErrMsg resp))

/-- The request `clearRecycleBin` issues. -/
def clearRecycleBinRequestOf (c : BlinkoClient) : HttpRequest :=
  { method := "POST", url := c.baseUrl ++ "/api/v1/note/clear-recycle-bin",
    headers := authHeaders c.apiKey, body := none }

/-- `BlinkoClient.clearRecycleBin`: one POST to
`/api/v1/note/clear-recycle-bin`; on any 2xx response it returns the literal
`{ success: true }` (modelled as `true`), otherwise it throws. -/
def clearRecycleBin (c : BlinkoClient) (resp : HttpResponse) :
    List HttpRequest × Except String Bool :=
  let req := clearRecycleBinRequestOf c
  if respOk resp then ([req], .ok true)
  else ([req], .error (genericErrMsg resp))

/-- The request `upsertNote` issues: body `{content, type}`. -/
def upsertRequestOf (c : BlinkoClient) (content : String) (ty : ℚ) : HttpRequest :=
  { method := "POST", url := c.baseUrl ++ "/api/v1/note/upsert",
    headers := jsonHeaders c.apiKey,
    body := some (.obj [("content", .str content), ("type", .num ty)]) }

/-- `BlinkoClient.upsertNote`: throws `invalid content` before any request
when the content string is empty (falsy), otherwise one POST to
`/api/v1/note/upsert`. -/
def upsertNote (c : BlinkoClient) (content : String) (ty : ℚ) (resp : HttpResponse) :
    List HttpRequest × Except String Json :=
  if content = "" then ([], .error "invalid content")
  else
    let req := upsertRequestOf c content ty
    if respOk resp then ([req], .ok resp.json)
    else ([req], .error (genericErrMsg resp))

/-- The request `updateNote` issues: a single-item batch to the TRPC upsert
path with body `{"0":{"json":{id, ...updates}}}`. -/
def updateRequestOf (c : BlinkoClient) (noteId : JsNumber)
    (updates : List (String × Json)) : HttpRequest :=
  { method := "POST", url := c.baseUrl ++ "/api/trpc/notes.upsert?batch=1",
    headers := jsonHeaders c.apiKey,
    body := some (.obj [("0", .obj [("json",
      .obj (("id", jsonOfNumber noteId) :: updates))])]) }

/-- Error message of `updateNote` on a non-2xx response. -/
def updateErrMsg (resp : HttpResponse) : String :=
  "Failed to update note: " ++ Nat.repr resp.status ++ ": " ++ resp.text

/-- `BlinkoClient.updateNote`: one POST to `notes.upsert?batch=1`; returns
`{ success: true }` (modelled as `true`) on 2xx, throws otherwise. -/
def updateNote (c : BlinkoClient) (noteId : JsNumber)
    (updates : List (String × Json)) (resp : HttpResponse) :
    List HttpRequest × Except String Bool :=
  let req := updateRequestOf c noteId updates
  if respOk resp then ([req], .ok true)
  else ([req], .error (updateErrMsg resp))

/-- The request `deleteNote` issues: a single-item batch to the TRPC
deleteMany path with body `{"0":{"json":{ids:[id]}}}`. -/
def deleteRequestOf (c : BlinkoClient) (noteId : JsNumber) : HttpRequest :=
  { method := "POST", url := c.baseUrl ++ "/api/trpc/notes.deleteMany?batch=1",
    headers := jsonHeaders c.apiKey,
    body := some (.obj [("0", .obj [("json",
      .obj [("ids", .arr [jsonOfNumber noteId])])])]) }

/-- Error message of `deleteNote` on a non-2xx response. -/
def deleteErrMsg (resp : HttpResponse) : String :=
  "Failed to delete note: " ++ Nat.repr resp.status ++ ": " ++ resp.text

/-- `BlinkoClient.deleteNote`: one POST to `notes.deleteMany?batch=1`. -/
def deleteNote (c : BlinkoClient) (noteId : JsNumber) (resp : HttpResponse) :
    List HttpRequest × Except String Bool :=
  let req := deleteRequestOf c noteId
  if respOk resp then ([req], .ok true)
  else ([req], .error (deleteErrMsg resp))

/-- `BlinkoClient.archiveNote`: delegates to `updateNote` with
`{isArchived: true}`. -/
def archiveNote (c : BlinkoClient) (noteId : JsNumber) (resp : HttpResponse) :
    List HttpRequest × Except String Bool :=
  updateNote c noteId [("isArchived", .bool true)] resp

/-- The share result mirrored back from the response body. -/
structure ShareResult where
  id : JsValue
  isShare : JsValue
  sharePassword : JsValue
  shareEncryptedUrl : JsValue

/-- The request `shareNote` issues: body `{id, isCancel, password}` with the
`?? false` / `?? ""` defaults applied. -/
def shareRequestOf (c : BlinkoClient) (id : JsNumber) (isCancel : Bool)
    (password : String) : HttpRequest :=
  { method := "POST", url := c.baseUrl ++ "/api/v1/note/share",
    headers := jsonHeaders c.apiKey,
    body := some (.obj [("id", jsonOfNumber id), ("isCancel", .bool isCancel),
      ("password", .str password)]) }

/-- `BlinkoClient.shareNote`: one POST to `/api/v1/note/share`; a 2xx
response is projected onto `{id, isShare, sharePassword, shareEncryptedUrl}`. -/
def shareNote (c : BlinkoClient) (id : JsNumber) (isCancel : Option Bool)
    (password : Option String) (resp : HttpResponse) :
    List HttpRequest × Except String ShareResult :=
  let req := shareRequestOf c id (isCancel.getD false) (password.getD "")
  if respOk resp then
    ([req], .ok ⟨jget resp.json "id", jget resp.json "isShare",
      jget resp.json "sharePassword", jget resp.json "shareEncryptedUrl"⟩)
  else ([req], .error (genericErrMsg resp))

/-! ### Tool dispatcher (`src/index.ts`) -/

/-- The tool-call argument bag: a JSON object's fields. -/
abbrev Args := List (String × Json)

/-- Argument access `request.params.arguments?.key`: a missing key reads as
`undefined`. -/
def getArg (args : Args) (key : String) : JsValue :=
  match args.lookup key with
  | some j => jsValueOfJson j
  | none => .undefined

/-- The `update_blinko_note` case's sparse update record: each of `content`,
`type`, `isArchived`, `isTop` is added (in this order, with its coercion)
exactly when the argument is not `undefined`. -/
def updatesOf (args : Args) : List (String × Json) :=
  (if (getArg args "content").isUndef then []
    else [("content", Json.str (jsToString (getArg args "content")))]) ++
  (if (getArg args "type").isUndef then []
    else [("type", jsonOfNumber (jsToNumber (getArg args "type")))]) ++
  (if (getArg args "isArchived").isUndef then []
    else [("isArchived", Json.bool (jsTruthy (getArg args "isArchived")))]) ++
  (if (getArg args "isTop").isUndef then []
    else [("isTop", Json.bool (jsTruthy (getArg args "isTop")))])

/-- The type-label mapping of the rendering helpers (`getTypeDescription`),
via strict equality on the note's `type` field. -/
def getTypeDescription (v : JsValue) : String :=
  if jsIsNumLit v 0 then "Flash Note"
  else if jsIsNumLit v 1 then "Normal Note"
  else if jsIsNumLit v 2 then "Todo Note"
  else "Unknown"

/-- One note's output block in `search_blinko_notes` and
`review_blinko_daily_notes`. -/
def renderNote (note : Json) : String :=
  "- [ID: " ++ jsToString (jget note "id") ++ "] [" ++
    getTypeDescription (jget note "type") ++ "] " ++
    jsToString (jget note "content") ++
    "\n  Created: " ++ formatDate (jget note "createdAt") ++
    " | Updated: " ++ formatDate (jget note "updatedAt")

/-- Result of one tool call: the requests issued and either the thrown error
or the ordered text blocks. -/
abbrev ToolResult := List HttpRequest × Except String (List String)

/-- The three `upsert_blinko_*` cases: coerce `content` with `String(...)`,
fail when the result is empty, pick the type from the tool name, call
`upsertNote` and report the created note's id. -/
def handleUpsert (c : BlinkoClient) (tool : String) (args : Args)
    (resp : HttpResponse) : ToolResult :=
  let content := jsToString (getArg args "content")
  if content = "" then ([], .error "Content is required")
  else
    let ty : ℚ := if tool = "upsert_blinko_flash_note" then 0
      else if tool = "upsert_blinko_note" then 1 else 2
    match upsertNote c content ty resp with
    | (reqs, .error e) => (reqs, .error e)
    | (reqs, .ok note) =>
      (reqs, .ok ["Successfully wrote note to Blinko. Note ID: " ++
        jsToString (jget note "id")])

/-- The `update_blinko_note` case: `Number(noteId)` must be truthy and not
NaN, then `updateNote` is called with the sparse update record. -/
def handleUpdate (c : BlinkoClient) (args : Args) (resp : HttpResponse) :
    ToolResult :=
  let n := jsToNumber (getArg args "noteId")
  if !(jsNumTruthy n) then ([], .error "Valid note ID is required")
  else
    match updateNote c n (updatesOf args) resp with
    | (reqs, .error e) => (reqs, .error e)
    | (reqs, .ok _) =>
      (reqs, .ok ["Successfully updated note " ++ jsNumberToString n])

/-- The `delete_blinko_note` case. -/
def handleDelete (c : BlinkoClient) (args : Args) (resp : HttpResponse) :
    ToolResult :=
  let n := jsToNumber (getArg args "noteId")
  if !(jsNumTruthy n) then ([], .error "Valid note ID is required")
  else
    match deleteNote c n resp with
    | (reqs, .error e) => (reqs, .error e)
    | (reqs, .ok _) =>
      (reqs, .ok ["Successfully deleted note " ++ jsNumberToString n])

/-- The shared `archive_blinko_note` / `complete_blinko_todo` case: both call
`archiveNote`; only the confirmation word depends on the tool name. -/
def handleArchive (c : BlinkoClient) (tool : String) (args : Args)
    (resp : HttpResponse) : ToolResult :=
  let n := jsToNumber (getArg args "noteId")
  if !(jsNumTruthy n) then ([], .error "Valid note ID is required")
  else
    let action := if tool = "complete_blinko_todo" then "completed" else "archived"
    match archiveNote c n resp with
    | (reqs, .error e) => (reqs, .error e)
    | (reqs, .ok _) =>
      (reqs, .ok ["Successfully " ++ action ++ " note " ++ jsNumberToString n])

/-- Whether a string matches `/^\d{6}$/`. -/
def isSixDigits (s : String) : Bool :=
  decide (s.data.length = 6) && s.data.all Char.isDigit

/-- The `search_blinko_notes` case's type filter: the argument when it is
strictly `0`, `1` or `2`, and `-1` otherwise. -/
def noteTypeOf (v : JsValue) : ℚ :=
  if jsIsNumLit v 0 then 0
  else if jsIsNumLit v 1 then 1
  else if jsIsNumLit v 2 then 2
  else -1

/-- The `share_blinko_note` case: validate `noteId` and the optional 6-digit
password, call `shareNote`, and render either the share blocks (id, optional
password, link with `"N/A"` fallback) or the cancel confirmation. -/
def handleShare (c : BlinkoClient) (args : Args) (resp : HttpResponse) :
    ToolResult :=
  let n := jsToNumber (getArg args "noteId")
  if !(jsNumTruthy n) then ([], .error "Valid note ID is required")
  else
    let pw := getArg args "password"
    let passwordStr := if jsTruthy pw then jsToString pw else ""
    if !(passwordStr = "") && !(isSixDigits passwordStr) then
      ([], .error "Password must be exactly 6 digits")
    else
      match shareNote c n (some (jsTruthy (getArg args "isCancel")))
          (some passwordStr) resp with
      | (reqs, .error e) => (reqs, .error e)
      | (reqs, .ok r) =>
        (reqs,
          if jsTruthy r.isShare then
            .ok (["Successfully shared note (ID: " ++ jsToString r.id ++ ")"] ++
              (if jsTruthy r.sharePassword then
                ["Share password: " ++ jsToString r.sharePassword] else []) ++
              ["Share link: " ++
                (if jsTruthy r.shareEncryptedUrl then
                  jsToString r.shareEncryptedUrl else "N/A")])
          else
            .ok ["Successfully cancelled sharing for note (ID: " ++
              jsToString r.id ++ ")"])

/-- The `search_blinko_notes` case: require a non-empty coerced
`searchText`, build the search parameters (`Number(size) || undefined`,
strict type filter, boolean coercions, `isUseAiQuery !== false`, nullable
date bounds), call `searchNotes` and render a count header plus one block
per note.  A decoded body that is not an array is modelled as an error
(the JavaScript would fail on `.map`). -/
def handleSearch (c : BlinkoClient) (args : Args) (resp : HttpResponse) :
    ToolResult :=
  let searchText := jsToString (getArg args "searchText")
  if searchText = "" then ([], .error "Search text is required")
  else
    let sizeN := jsToNumber (getArg args "size")
    let p : SearchNotesParams :=
      { size := if jsNumTruthy sizeN then some sizeN else none,
        type := some (noteTypeOf (getArg args "type")),
        isArchived := some (jsTruthy (getArg args "isArchived")),
        isRecycle := some (jsTruthy (getArg args "isRecycle")),
        searchText := searchText,
        isUseAiQuery := some (!(jsIsFalse (getArg args "isUseAiQuery"))),
        startDate := some (if jsTruthy (getArg args "startDate") then
          some (jsToString (getArg args "startDate")) else none),
        endDate := some (if jsTruthy (getArg args "endDate") then
          some (jsToString (getArg args "endDate")) else none),
        hasTodo := some (jsTruthy (getArg args "hasTodo")) }
    match searchNotes c p resp with
    | (reqs, .error e) => (reqs, .error e)
    | (reqs, .ok j) =>
      (reqs,
        match j with
        | .arr notes =>
          .ok (("Found " ++ Nat.repr notes.length ++ " note(s):") ::
            notes.map renderNote)
        | _ => .error "response is not an array")

/-- The `review_blinko_daily_notes` case: no arguments; formats like search
with a review header. -/
def handleReview (c : BlinkoClient) (resp : HttpResponse) : ToolResult :=
  match getDailyReviewNotes c resp with
  | (reqs, .error e) => (reqs, .error e)
  | (reqs, .ok j) =>
    (reqs,
      match j with
      | .arr notes =>
        .ok (("Found " ++ Nat.repr notes.length ++
          " note(s) for today's review:") :: notes.map renderNote)
      | _ => .error "response is not an array")

/-- The `clear_blinko_recycle_bin` case: call `clearRecycleBin` and raise a
generic failure when the result is not a success. -/
def handleClear (c : BlinkoClient) (resp : HttpResponse) : ToolResult :=
  match clearRecycleBin c resp with
  | (reqs, .error e) => (reqs, .error e)
  | (reqs, .ok success) =>
    if !success then (reqs, .error "Failed to clear recycle bin")
    else (reqs, .ok ["Successfully cleared Blinko recycle bin."])

/-- The full call handler: configuration checks, client construction, then
the tool-name switch. -/
def dispatch (domain apiKey tool : String) (args : Args) (resp : HttpResponse) :
    ToolResult :=
  if domain = "" then ([], .error "Blinko domain not set")
  else if apiKey = "" then ([], .error "Blinko API key not set")
  else
    match normalizeDomain domain with
    | .error e => ([], .error e)
    | .ok base =>
      let c : BlinkoClient := ⟨base, apiKey⟩
      if tool = "upsert_blinko_flash_note" ∨ tool = "upsert_blinko_note" ∨
          tool = "upsert_blinko_todo" then handleUpsert c tool args resp
      else if tool = "update_blinko_note" then handleUpdate c args resp
      else if tool = "delete_blinko_note" then handleDelete c args resp
      else if tool = "archive_blinko_note" ∨ tool = "complete_blinko_todo" then
        handleArchive c tool args resp
      else if tool = "share_blinko_note" then handleShare c args resp
      else if tool = "search_blinko_notes" then handleSearch c args resp
      else if tool = "review_blinko_daily_notes" then handleReview c resp
      else if tool = "clear_blinko_recycle_bin" then handleClear c resp
      else ([], .error "Unknown tool")

/-- Occurrence of `sub` as a contiguous substring of `s`. -/
def containsStr (s sub : String) : Prop :=
  ∃ a z, s = a ++ sub ++ z

/-! ### Helper lemmas -/

theorem strEq_of_data {s t : String} (h : s.data = t.data) : s = t := by
  cases s; cases t; exact congrArg String.mk h

theorem strStartsWith_iff (s p : String) :
    strStartsWith s p = true ↔ p.data <+: s.data := by
  simp [strStartsWith, List.isPrefixOf_iff_prefix]

theorem stripTrailingSlash_data (s : String) :
    (stripTrailingSlash s).data =
      if s.data.getLast? = some '/' then s.data.dropLast else s.data := by
  unfold stripTrailingSlash
  split <;> simp_all

theorem strip_keeps_unprefixed (d p : String)
    (h : strStartsWith d p = false) :
    strStartsWith (stripTrailingSlash d) p = false := by
  cases h2 : strStartsWith (stripTrailingSlash d) p with
  | false => rfl
  | true =>
    exfalso
    rw [strStartsWith_iff, stripTrailingSlash_data] at h2
    have hp : p.data <+: d.data := by
      by_cases hl : d.data.getLast? = some '/'
      · rw [if_pos hl] at h2
        exact h2.trans (List.dropLast_prefix d.data)
      · rwa [if_neg hl] at h2
    rw [← strStartsWith_iff] at hp
    simp [h] at hp

theorem strip_keeps_prefixed (d p : String)
    (h : strStartsWith d p = true) (hne : d ≠ p) :
    strStartsWith (stripTrailingSlash d) p = true := by
  rw [strStartsWith_iff] at h ⊢
  rw [stripTrailingSlash_data]
  by_cases hl : d.data.getLast? = some '/'
  · rw [if_pos hl]
    have hneq : p.data ≠ d.data := fun he => hne (strEq_of_data he.symm)
    have hlt : p.data.length < d.data.length :=
      lt_of_le_of_ne h.length_le fun he => hneq (h.eq_of_length he)
    rw [List.prefix_iff_eq_take] at h ⊢
    rw [List.dropLast_eq_take, List.take_take, min_eq_left (by omega)]
    exact h
  · rwa [if_neg hl]

theorem normalizeDomain_isOk {d : String} (hd : d ≠ "") :
    ∃ b, normalizeDomain d = .ok b := by
  unfold normalizeDomain
  rw [if_neg hd]
  dsimp only
  split
  · exact ⟨_, rfl⟩
  · exact ⟨_, rfl⟩

theorem dispatch_upsert_route {domain apiKey : String} (tool : String)
    (args : Args) (resp : HttpResponse) (hd : domain ≠ "") (hk : apiKey ≠ "")
    {b : String} (hb : normalizeDomain domain = .ok b)
    (ht : tool = "upsert_blinko_flash_note" ∨ tool = "upsert_blinko_note" ∨
      tool = "upsert_blinko_todo") :
    dispatch domain apiKey tool args resp = handleUpsert ⟨b, apiKey⟩ tool args resp := by
  unfold dispatch
  rw [if_neg hd, if_neg hk, hb]
  dsimp only
  rw [if_pos ht]

theorem dispatch_update_route {domain apiKey : String} (args : Args)
    (resp : HttpResponse) (hd : domain ≠ "") (hk : apiKey ≠ "")
    {b : String} (hb : normalizeDomain domain = .ok b) :
    dispatch domain apiKey "update_blinko_note" args resp =
      handleUpdate ⟨b, apiKey⟩ args resp := by
  unfold dispatch
  rw [if_neg hd, if_neg hk, hb]
  dsimp only
  rw [if_neg (by decide), if_pos rfl]

theorem dispatch_delete_route {domain apiKey : String} (args : Args)
    (resp : HttpResponse) (hd : domain ≠ "") (hk : apiKey ≠ "")
    {b : String} (hb : normalizeDomain domain = .ok b) :
    dispatch domain apiKey "delete_blinko_note" args resp =
      handleDelete ⟨b, apiKey⟩ args resp := by
  unfold dispatch
  rw [if_neg hd, if_neg hk, hb]
  dsimp only
  rw [if_neg (by decide), if_neg (by decide), if_pos rfl]

theorem dispatch_archive_route {domain apiKey : String} (tool : String)
    (args : Args) (resp : HttpResponse) (hd : domain ≠ "") (hk : apiKey ≠ "")
    {b : String} (hb : normalizeDomain domain = .ok b)
    (ht : tool = "archive_blinko_note" ∨ tool = "complete_blinko_todo") :
    dispatch domain apiKey tool args resp =
      handleArchive ⟨b, apiKey⟩ tool args resp := by
  have h1 : ¬(tool = "upsert_blinko_flash_note" ∨ tool = "upsert_blinko_note" ∨
      tool = "upsert_blinko_todo") := by rcases ht with h | h <;> subst h <;> decide
  have h2 : tool ≠ "update_blinko_note" := by rcases ht with h | h <;> subst h <;> decide
  have h3 : tool ≠ "delete_blinko_note" := by rcases ht with h | h <;> subst h <;> decide
  unfold dispatch
  rw [if_neg hd, if_neg hk, hb]
  dsimp only
  rw [if_neg h1, if_neg h2, if_neg h3, if_pos ht]

theorem dispatch_share_route {domain apiKey : String} (args : Args)
    (resp : HttpResponse) (hd : domain ≠ "") (hk : apiKey ≠ "")
    {b : String} (hb : normalizeDomain domain = .ok b) :
    dispatch domain apiKey "share_blinko_note" args resp =
      handleShare ⟨b, apiKey⟩ args resp := by
  unfold dispatch
  rw [if_neg hd, if_neg hk, hb]
  dsimp only
  rw [if_neg (by decide), if_neg (by decide), if_neg (by decide),
    if_neg (by decide), if_pos rfl]

theorem dispatch_search_route {domain apiKey : String} (args : Args)
    (resp : HttpResponse) (hd : domain ≠ "") (hk : apiKey ≠ "")
    {b : String} (hb : normalizeDomain domain = .ok b) :
    dispatch domain apiKey "search_blinko_notes" args resp =
      handleSearch ⟨b, apiKey⟩ args resp := by
  unfold dispatch
  rw [if_neg hd, if_neg hk, hb]
  dsimp only
  rw [if_neg (by decide), if_neg (by decide), if_neg (by decide),
    if_neg (by decide), if_neg (by decide), if_pos rfl]

theorem dispatch_clear_route {domain apiKey : String}
    (args : Args) (resp : HttpResponse) (hd : domain ≠ "") (hk : apiKey ≠ "")
    {b : String} (hb : normalizeDomain domain = .ok b) :
    dispatch domain apiKey "clear_blinko_recycle_bin" args resp =
      handleClear ⟨b, apiKey⟩ resp := by
  unfold dispatch
  rw [if_neg hd, if_neg hk, hb]
  dsimp only
  rw [if_neg (by decide), if_neg (by decide), if_neg (by decide),
    if_neg (by decide), if_neg (by decide), if_neg (by decide),
    if_neg (by decide), if_pos rfl]

/-! ### Claims -/

/-- Claim C5 (amended): for every non-empty domain without an `http://` or
`https://` prefix the normalized base URL is `https://` prepended to the
domain with a single trailing slash removed; a domain that keeps its
`http://` or `https://` prefix — i.e. any prefixed domain other than the
bare strings `"http://"` and `"https://"` themselves — passes through with a
single trailing slash removed. -/
theorem normalize_domain_spec (d : String) (hd : d ≠ "") :
    (strStartsWith d "http://" = false → strStartsWith d "https://" = false →
      normalizeDomain d = .ok ("https://" ++ stripTrailingSlash d)) ∧
    ((strStartsWith d "http://" = true ∨ strStartsWith d "https://" = true) →
      d ≠ "http://" → d ≠ "https://" →
      normalizeDomain d = .ok (stripTrailingSlash d)) := by
  unfold normalizeDomain
  rw [if_neg hd]
  dsimp only
  constructor
  · intro h1 h2
    rw [strip_keeps_unprefixed d _ h1, strip_keeps_unprefixed d _ h2]
    rfl
  · intro hpre hne1 hne2
    rcases hpre with h | h
    · rw [strip_keeps_prefixed d _ h hne1]
      rfl
    · rw [strip_keeps_prefixed d _ h hne2]
      simp [Bool.or_true]

/-- Claim C5, witness: a scheme-less domain with a trailing slash normalizes
to `https://example.com`, discharging the statement at a concrete input. -/
theorem normalize_domain_spec_witness :
    (strStartsWith "example.com/" "http://" = false →
      strStartsWith "example.com/" "https://" = false →
      normalizeDomain "example.com/" =
        .ok ("https://" ++ stripTrailingSlash "example.com/")) ∧
    ((strStartsWith "example.com/" "http://" = true ∨
      strStartsWith "example.com/" "https://" = true) →
      "example.com/" ≠ "http://" → "example.com/" ≠ "https://" →
      normalizeDomain "example.com/" = .ok (stripTrailingSlash "example.com/")) :=
  normalize_domain_spec "example.com/" (by decide)

/-- Claim C5, counterexample: the input `"http://"` is prefixed with
`http://`, so the claim as stated demands pass-through minus the trailing
slash (`"http:/"`); but the code strips the slash before the prefix check
and returns `"https://http:/"`. -/
theorem normalize_domain_counterexample :
    strStartsWith "http://" "http://" = true ∧
    stripTrailingSlash "http://" = "http:/" ∧
    normalizeDomain "http://" = .ok "https://http:/" ∧
    "https://http:/" ≠ "http:/" :=
  ⟨by decide, rfl, rfl, by decide⟩

/-- Claim C10: whenever `clearRecycleBin` returns normally its result is the
literal success value (never `success = false`), so the branch of the
`clear_blinko_recycle_bin` case that raises `Failed to clear recycle bin`
on a non-success result is unreachable: the handler equals the same handler
with that branch removed. -/
theorem clear_recycle_bin_failure_branch_unreachable (c : BlinkoClient)
    (resp : HttpResponse) :
    (clearRecycleBin c resp).2 ≠ Except.ok false ∧
    handleClear c resp =
      (match clearRecycleBin c resp with
       | (reqs, .error e) => (reqs, .error e)
       | (reqs, .ok _) =>
         (reqs, .ok ["Successfully cleared Blinko recycle bin."])) := by
  unfold handleClear clearRecycleBin
  cases h : respOk resp <;> simp [h]

/-- Claim C6: `complete_blinko_todo` and `archive_blinko_note` run the same
dispatcher case: they issue identical request lists, their outcomes agree up
to the confirmation wording (`completed` versus `archived`), and on a valid
`noteId` the single request issued is the single-item batched update whose
inner payload sets `isArchived: true` on that id. -/
theorem complete_todo_same_mutation_as_archive (domain apiKey : String)
    (args : Args) (resp : HttpResponse) :
    (dispatch domain apiKey "complete_blinko_todo" args resp).1 =
      (dispatch domain apiKey "archive_blinko_note" args resp).1 ∧
    ((∃ e,
        (dispatch domain apiKey "complete_blinko_todo" args resp).2 =
          .error e ∧
        (dispatch domain apiKey "archive_blinko_note" args resp).2 =
          .error e) ∨
     (∃ s,
        (dispatch domain apiKey "complete_blinko_todo" args resp).2 =
          .ok ["Successfully completed note " ++ s] ∧
        (dispatch domain apiKey "archive_blinko_note" args resp).2 =
          .ok ["Successfully archived note " ++ s])) ∧
    (domain ≠ "" → apiKey ≠ "" →
      jsNumTruthy (jsToNumber (getArg args "noteId")) = true →
      ∃ req,
        (dispatch domain apiKey "complete_blinko_todo" args resp).1 = [req] ∧
        req.body = some (.obj [("0", .obj [("json", .obj
          [("id", jsonOfNumber (jsToNumber (getArg args "noteId"))),
           ("isArchived", Json.bool true)])])])) := by
  by_cases hd : domain = ""
  · subst hd
    exact ⟨rfl, Or.inl ⟨"Blinko domain not set", rfl, rfl⟩,
      fun h => absurd rfl h⟩
  · by_cases hk : apiKey = ""
    · subst hk
      have e1 : dispatch domain "" "complete_blinko_todo" args resp =
          ([], .error "Blinko API key not set") := by
        unfold dispatch; rw [if_neg hd]; rfl
      have e2 : dispatch domain "" "archive_blinko_note" args resp =
          ([], .error "Blinko API key not set") := by
        unfold dispatch; rw [if_neg hd]; rfl
      rw [e1, e2]
      exact ⟨rfl, Or.inl ⟨_, rfl, rfl⟩, fun _ hk' _ => absurd rfl hk'⟩
    · obtain ⟨b, hb⟩ := normalizeDomain_isOk hd
      rw [dispatch_archive_route "complete_blinko_todo" args resp hd hk hb
            (Or.inr rfl),
          dispatch_archive_route "archive_blinko_note" args resp hd hk hb
            (Or.inl rfl)]
      simp only [handleArchive, archiveNote, updateNote]
      cases hn : jsNumTruthy (jsToNumber (getArg args "noteId"))
      · rw [if_pos (by decide : (!false) = true)]
        exact ⟨rfl, Or.inl ⟨"Valid note ID is required", rfl, rfl⟩,
          fun _ _ h => absurd h (by decide)⟩
      · rw [if_neg (by decide : ¬((!true) = true))]
        cases ho : respOk resp
        · rw [if_neg (by decide : ¬(false = true))]
          exact ⟨rfl, Or.inl ⟨updateErrMsg resp, rfl, rfl⟩,
            fun _ _ _ => ⟨_, rfl, rfl⟩⟩
        · rw [if_pos (rfl : true = true)]
          exact ⟨rfl,
            Or.inr ⟨jsNumberToString (jsToNumber (getArg args "noteId")),
              rfl, rfl⟩,
            fun _ _ _ => ⟨_, rfl, rfl⟩⟩

theorem updatesOf_keys (args : Args) :
    (updatesOf args).map Prod.fst =
      ["content", "type", "isArchived", "isTop"].filter
        (fun f => !(getArg args f).isUndef) := by
  unfold updatesOf
  cases h1 : (getArg args "content").isUndef <;>
  cases h2 : (getArg args "type").isUndef <;>
  cases h3 : (getArg args "isArchived").isUndef <;>
  cases h4 : (getArg args "isTop").isUndef <;>
    simp [h1, h2, h3, h4, List.filter]

/-- Claim C1: for every `update_blinko_note` invocation with a valid
`noteId`, exactly one update request is issued, its payload's inner object
is the id followed by precisely the optional fields the caller supplied
(in the fixed order content, type, isArchived, isTop) and no other keys;
with only `noteId = 5` supplied, the inner object is exactly `{id: 5}`. -/
theorem update_note_payload_exact_fields (domain apiKey : String)
    (args : Args) (resp : HttpResponse) (hd : domain ≠ "") (hk : apiKey ≠ "")
    (hn : jsNumTruthy (jsToNumber (getArg args "noteId")) = true) :
    ∃ req,
      (dispatch domain apiKey "update_blinko_note" args resp).1 = [req] ∧
      req.body = some (.obj [("0", .obj [("json", .obj
        (("id", jsonOfNumber (jsToNumber (getArg args "noteId"))) ::
          updatesOf args))])]) ∧
      ((("id", jsonOfNumber (jsToNumber (getArg args "noteId"))) ::
          updatesOf args).map Prod.fst =
        "id" :: (["content", "type", "isArchived", "isTop"].filter
          (fun f => !(getArg args f).isUndef))) ∧
      (args = [("noteId", Json.num 5)] →
        ("id", jsonOfNumber (jsToNumber (getArg args "noteId"))) ::
          updatesOf args = [("id", Json.num 5)]) := by
  obtain ⟨b, hb⟩ := normalizeDomain_isOk hd
  rw [dispatch_update_route args resp hd hk hb]
  simp only [handleUpdate, updateNote]
  rw [hn, if_neg (by decide : ¬((!true) = true))]
  have hkeys : (("id", jsonOfNumber (jsToNumber (getArg args "noteId"))) ::
      updatesOf args).map Prod.fst =
      "id" :: (["content", "type", "isArchived", "isTop"].filter
        (fun f => !(getArg args f).isUndef)) := by
    rw [List.map_cons, updatesOf_keys]
  have hconc : args = [("noteId", Json.num 5)] →
      ("id", jsonOfNumber (jsToNumber (getArg args "noteId"))) ::
        updatesOf args = [("id", Json.num 5)] := by
    intro ha; subst ha; rfl
  cases ho : respOk resp
  · rw [if_neg (by decide : ¬(false = true))]
    exact ⟨_, rfl, rfl, hkeys, hconc⟩
  · rw [if_pos (rfl : true = true)]
    exact ⟨_, rfl, rfl, hkeys, hconc⟩

/-- Claim C1, witness: invoking `update_blinko_note` with only `noteId = 5`
issues one request whose inner payload is exactly `{id: 5}`. -/
theorem update_note_payload_exact_fields_witness :
    ∃ req,
      (dispatch "example.com" "k" "update_blinko_note"
        [("noteId", Json.num 5)] ⟨200, "", Json.null⟩).1 = [req] ∧
      req.body = some (.obj [("0", .obj [("json", .obj
        (("id", jsonOfNumber (jsToNumber
            (getArg [("noteId", Json.num 5)] "noteId"))) ::
          updatesOf [("noteId", Json.num 5)]))])]) ∧
      ((("id", jsonOfNumber (jsToNumber
            (getArg [("noteId", Json.num 5)] "noteId"))) ::
          updatesOf [("noteId", Json.num 5)]).map Prod.fst =
        "id" :: (["content", "type", "isArchived", "isTop"].filter
          (fun f => !(getArg [("noteId", Json.num 5)] f).isUndef))) ∧
      ([("noteId", Json.num 5)] = [("noteId", Json.num 5)] →
        ("id", jsonOfNumber (jsToNumber
            (getArg [("noteId", Json.num 5)] "noteId"))) ::
          updatesOf [("noteId", Json.num 5)] = [("id", Json.num 5)]) :=
  update_note_payload_exact_fields "example.com" "k" [("noteId", Json.num 5)]
    ⟨200, "", Json.null⟩ (by decide) (by decide) (by decide)

theorem jsNumTruthy_false_iff (n : JsNumber) :
    jsNumTruthy n = false ↔ (n = .nan ∨ n = .fin 0) := by
  cases n <;> simp [jsNumTruthy]

theorem handleUpdate_invalid (c : BlinkoClient) (args : Args)
    (resp : HttpResponse)
    (h : jsNumTruthy (jsToNumber (getArg args "noteId")) = false) :
    handleUpdate c args resp = ([], .error "Valid note ID is required") := by
  simp only [handleUpdate]
  rw [h, if_pos (by decide : (!false) = true)]

theorem handleUpdate_valid (c : BlinkoClient) (args : Args)
    (resp : HttpResponse)
    (h : jsNumTruthy (jsToNumber (getArg args "noteId")) = true) :
    (handleUpdate c args resp).1 =
      [updateRequestOf c (jsToNumber (getArg args "noteId"))
        (updatesOf args)] := by
  simp only [handleUpdate, updateNote]
  rw [h, if_neg (by decide : ¬((!true) = true))]
  cases ho : respOk resp
  · rw [if_neg (by decide : ¬(false = true))]
  · rw [if_pos (rfl : true = true)]

theorem handleDelete_invalid (c : BlinkoClient) (args : Args)
    (resp : HttpResponse)
    (h : jsNumTruthy (jsToNumber (getArg args "noteId")) = false) :
    handleDelete c args resp = ([], .error "Valid note ID is required") := by
  simp only [handleDelete]
  rw [h, if_pos (by decide : (!false) = true)]

theorem handleDelete_valid (c : BlinkoClient) (args : Args)
    (resp : HttpResponse)
    (h : jsNumTruthy (jsToNumber (getArg args "noteId")) = true) :
    (handleDelete c args resp).1 =
      [deleteRequestOf c (jsToNumber (getArg args "noteId"))] := by
  simp only [handleDelete, deleteNote]
  rw [h, if_neg (by decide : ¬((!true) = true))]
  cases ho : respOk resp
  · rw [if_neg (by decide : ¬(false = true))]
  · rw [if_pos (rfl : true = true)]

theorem handleArchive_invalid (c : BlinkoClient) (tool : String)
    (args : Args) (resp : HttpResponse)
    (h : jsNumTruthy (jsToNumber (getArg args "noteId")) = false) :
    handleArchive c tool args resp =
      ([], .error "Valid note ID is required") := by
  simp only [handleArchive]
  rw [h, if_pos (by decide : (!false) = true)]

theorem handleArchive_valid (c : BlinkoClient) (tool : String) (args : Args)
    (resp : HttpResponse)
    (h : jsNumTruthy (jsToNumber (getArg args "noteId")) = true) :
    (handleArchive c tool args resp).1 =
      [updateRequestOf c (jsToNumber (getArg args "noteId"))
        [("isArchived", .bool true)]] := by
  simp only [handleArchive, archiveNote, updateNote]
  rw [h, if_neg (by decide : ¬((!true) = true))]
  cases ho : respOk resp
  · rw [if_neg (by decide : ¬(false = true))]
  · rw [if_pos (rfl : true = true)]

theorem handleShare_invalid (c : BlinkoClient) (args : Args)
    (resp : HttpResponse)
    (h : jsNumTruthy (jsToNumber (getArg args "noteId")) = false) :
    handleShare c args resp = ([], .error "Valid note ID is required") := by
  simp only [handleShare]
  rw [h, if_pos (by decide : (!false) = true)]

theorem handleShare_pw_invalid (c : BlinkoClient) (args : Args)
    (resp : HttpResponse)
    (h : jsNumTruthy (jsToNumber (getArg args "noteId")) = true)
    (hp : (if jsTruthy (getArg args "password") = true then
        jsToString (getArg args "password") else "") ≠ "")
    (h6 : isSixDigits (if jsTruthy (getArg args "password") = true then
        jsToString (getArg args "password") else "") = false) :
    handleShare c args resp =
      ([], .error "Password must be exactly 6 digits") := by
  simp only [handleShare]
  rw [h, if_neg (by decide : ¬((!true) = true))]
  rw [if_pos (by simp [hp, h6])]

theorem handleShare_pw_valid (c : BlinkoClient) (args : Args)
    (resp : HttpResponse)
    (h : jsNumTruthy (jsToNumber (getArg args "noteId")) = true)
    (hp : (if jsTruthy (getArg args "password") = true then
        jsToString (getArg args "password") else "") = "" ∨
      isSixDigits (if jsTruthy (getArg args "password") = true then
        jsToString (getArg args "password") else "") = true) :
    ∃ r, (handleShare c args resp).1 = [r] := by
  simp only [handleShare, shareNote]
  rw [h, if_neg (by decide : ¬((!true) = true))]
  rw [if_neg (by rcases hp with h7 | h7 <;> simp [h7])]
  cases ho : respOk resp
  · rw [if_neg (by decide : ¬(false = true))]
    exact ⟨shareRequestOf c (jsToNumber (getArg args "noteId"))
      ((some (jsTruthy (getArg args "isCancel"))).getD false)
      ((some (if jsTruthy (getArg args "password") = true then
        jsToString (getArg args "password") else "")).getD ""), rfl⟩
  · rw [if_pos (rfl : true = true)]
    exact ⟨shareRequestOf c (jsToNumber (getArg args "noteId"))
      ((some (jsTruthy (getArg args "isCancel"))).getD false)
      ((some (if jsTruthy (getArg args "password") = true then
        jsToString (getArg args "password") else "")).getD ""), rfl⟩

/-- Claim C3 (amended): for `update_blinko_note`, `delete_blinko_note`,
`archive_blinko_note`, `complete_blinko_todo` and `share_blinko_note`, the
`noteId` validation fails — before any remote call — exactly when the
coerced `Number(noteId)` is NaN or 0 (a falsy number); in particular 0 is a
finite number that is rejected, while the non-finite infinities are
accepted.  When the coerced id is truthy, the four mutation tools issue
their client request; `share_blinko_note` additionally rejects, before any
remote call, a truthy password whose string form is non-empty and not
exactly six digits, and issues its request otherwise. -/
theorem noteId_validation_iff_falsy (domain apiKey : String) (args : Args)
    (resp : HttpResponse) (hd : domain ≠ "") (hk : apiKey ≠ "") :
    ((jsToNumber (getArg args "noteId") = .nan ∨
      jsToNumber (getArg args "noteId") = .fin 0) →
      dispatch domain apiKey "update_blinko_note" args resp =
        ([], .error "Valid note ID is required") ∧
      dispatch domain apiKey "delete_blinko_note" args resp =
        ([], .error "Valid note ID is required") ∧
      dispatch domain apiKey "archive_blinko_note" args resp =
        ([], .error "Valid note ID is required") ∧
      dispatch domain apiKey "complete_blinko_todo" args resp =
        ([], .error "Valid note ID is required") ∧
      dispatch domain apiKey "share_blinko_note" args resp =
        ([], .error "Valid note ID is required")) ∧
    (¬(jsToNumber (getArg args "noteId") = .nan ∨
       jsToNumber (getArg args "noteId") = .fin 0) →
      (∃ r, (dispatch domain apiKey "update_blinko_note" args resp).1 = [r]) ∧
      (∃ r, (dispatch domain apiKey "delete_blinko_note" args resp).1 = [r]) ∧
      (∃ r, (dispatch domain apiKey "archive_blinko_note" args resp).1 = [r]) ∧
      (∃ r, (dispatch domain apiKey "complete_blinko_todo" args resp).1 = [r]) ∧
      (((if jsTruthy (getArg args "password") = true then
           jsToString (getArg args "password") else "") ≠ "" →
        isSixDigits (if jsTruthy (getArg args "password") = true then
           jsToString (getArg args "password") else "") = false →
        dispatch domain apiKey "share_blinko_note" args resp =
          ([], .error "Password must be exactly 6 digits")) ∧
       ((if jsTruthy (getArg args "password") = true then
           jsToString (getArg args "password") else "") = "" ∨
        isSixDigits (if jsTruthy (getArg args "password") = true then
           jsToString (getArg args "password") else "") = true →
        ∃ r, (dispatch domain apiKey "share_blinko_note" args resp).1 =
          [r]))) := by
  obtain ⟨b, hb⟩ := normalizeDomain_isOk hd
  rw [dispatch_update_route args resp hd hk hb,
      dispatch_delete_route args resp hd hk hb,
      dispatch_archive_route "archive_blinko_note" args resp hd hk hb
        (Or.inl rfl),
      dispatch_archive_route "complete_blinko_todo" args resp hd hk hb
        (Or.inr rfl),
      dispatch_share_route args resp hd hk hb]
  constructor
  · intro hbad
    have hf : jsNumTruthy (jsToNumber (getArg args "noteId")) = false :=
      (jsNumTruthy_false_iff _).mpr hbad
    exact ⟨handleUpdate_invalid _ _ _ hf, handleDelete_invalid _ _ _ hf,
      handleArchive_invalid _ _ _ _ hf, handleArchive_invalid _ _ _ _ hf,
      handleShare_invalid _ _ _ hf⟩
  · intro hgood
    have ht : jsNumTruthy (jsToNumber (getArg args "noteId")) = true := by
      cases hv : jsNumTruthy (jsToNumber (getArg args "noteId"))
      · exact absurd ((jsNumTruthy_false_iff _).mp hv) hgood
      · rfl
    refine ⟨⟨_, handleUpdate_valid _ _ _ ht⟩,
      ⟨_, handleDelete_valid _ _ _ ht⟩,
      ⟨_, handleArchive_valid _ _ _ _ ht⟩,
      ⟨_, handleArchive_valid _ _ _ _ ht⟩, ?_, ?_⟩
    · intro hp h6
      exact handleShare_pw_invalid _ _ _ ht hp h6
    · intro hp
      exact handleShare_pw_valid _ _ _ ht hp

/-- Claim C3, witness: `noteId = 7` coerces to a truthy number, so all five
tools proceed to their client call (and a six-digit password passes the
share validation). -/
theorem noteId_validation_iff_falsy_witness :
    ((jsToNumber (getArg [("noteId", Json.num 7)] "noteId") = .nan ∨
      jsToNumber (getArg [("noteId", Json.num 7)] "noteId") = .fin 0) →
      dispatch "example.com" "k" "update_blinko_note"
          [("noteId", Json.num 7)] ⟨200, "", Json.null⟩ =
        ([], .error "Valid note ID is required") ∧
      dispatch "example.com" "k" "delete_blinko_note"
          [("noteId", Json.num 7)] ⟨200, "", Json.null⟩ =
        ([], .error "Valid note ID is required") ∧
      dispatch "example.com" "k" "archive_blinko_note"
          [("noteId", Json.num 7)] ⟨200, "", Json.null⟩ =
        ([], .error "Valid note ID is required") ∧
      dispatch "example.com" "k" "complete_blinko_todo"
          [("noteId", Json.num 7)] ⟨200, "", Json.null⟩ =
        ([], .error "Valid note ID is required") ∧
      dispatch "example.com" "k" "share_blinko_note"
          [("noteId", Json.num 7)] ⟨200, "", Json.null⟩ =
        ([], .error "Valid note ID is required")) ∧
    (¬(jsToNumber (getArg [("noteId", Json.num 7)] "noteId") = .nan ∨
       jsToNumber (getArg [("noteId", Json.num 7)] "noteId") = .fin 0) →
      (∃ r, (dispatch "example.com" "k" "update_blinko_note"
        [("noteId", Json.num 7)] ⟨200, "", Json.null⟩).1 = [r]) ∧
      (∃ r, (dispatch "example.com" "k" "delete_blinko_note"
        [("noteId", Json.num 7)] ⟨200, "", Json.null⟩).1 = [r]) ∧
      (∃ r, (dispatch "example.com" "k" "archive_blinko_note"
        [("noteId", Json.num 7)] ⟨200, "", Json.null⟩).1 = [r]) ∧
      (∃ r, (dispatch "example.com" "k" "complete_blinko_todo"
        [("noteId", Json.num 7)] ⟨200, "", Json.null⟩).1 = [r]) ∧
      (((if jsTruthy (getArg [("noteId", Json.num 7)] "password") = true then
           jsToString (getArg [("noteId", Json.num 7)] "password") else "")
            ≠ "" →
        isSixDigits (if jsTruthy (getArg [("noteId", Json.num 7)]
             "password") = true then
           jsToString (getArg [("noteId", Json.num 7)] "password") else "")
            = false →
        dispatch "example.com" "k" "share_blinko_note"
            [("noteId", Json.num 7)] ⟨200, "", Json.null⟩ =
          ([], .error "Password must be exactly 6 digits")) ∧
       ((if jsTruthy (getArg [("noteId", Json.num 7)] "password") = true then
           jsToString (getArg [("noteId", Json.num 7)] "password") else "")
            = "" ∨
        isSixDigits (if jsTruthy (getArg [("noteId", Json.num 7)]
             "password") = true then
           jsToString (getArg [("noteId", Json.num 7)] "password") else "")
            = true →
        ∃ r, (dispatch "example.com" "k" "share_blinko_note"
          [("noteId", Json.num 7)] ⟨200, "", Json.null⟩).1 = [r]))) :=
  noteId_validation_iff_falsy "example.com" "k" [("noteId", Json.num 7)]
    ⟨200, "", Json.null⟩ (by decide) (by decide)

/-- Claim C3, counterexample: `noteId = 0` coerces to the finite number 0,
yet `delete_blinko_note` fails validation (before any remote call) instead
of proceeding, refuting the claimed equivalence with finiteness. -/
theorem noteId_zero_finite_yet_rejected :
    (∃ q, jsToNumber (getArg [("noteId", Json.num 0)] "noteId") =
      JsNumber.fin q) ∧
    dispatch "example.com" "k" "delete_blinko_note"
        [("noteId", Json.num 0)] ⟨200, "", Json.null⟩ =
      ([], .error "Valid note ID is required") :=
  ⟨⟨0, rfl⟩, rfl⟩

/-- Claim C4 (amended): for the three upsert tools the call fails with
`Content is required` before any remote call exactly when the `String(...)`
coercion of `content` is the empty string — which happens only when the
argument is supplied as the empty string; in every other case (including a
missing argument, which coerces to the literal text `"undefined"`) the
coerced text is sent to `upsertNote` with type 0, 1 or 2 per the tool. -/
theorem upsert_content_validation (domain apiKey tool : String) (args : Args)
    (resp : HttpResponse) (hd : domain ≠ "") (hk : apiKey ≠ "")
    (htool : tool = "upsert_blinko_flash_note" ∨ tool = "upsert_blinko_note" ∨
      tool = "upsert_blinko_todo") :
    (jsToString (getArg args "content") = "" →
      dispatch domain apiKey tool args resp =
        ([], .error "Content is required")) ∧
    (jsToString (getArg args "content") ≠ "" →
      ∃ req, (dispatch domain apiKey tool args resp).1 = [req] ∧
        req.body = some (.obj
          [("content", Json.str (jsToString (getArg args "content"))),
           ("type", Json.num (if tool = "upsert_blinko_flash_note" then 0
             else if tool = "upsert_blinko_note" then 1 else 2))])) := by
  obtain ⟨b, hb⟩ := normalizeDomain_isOk hd
  rw [dispatch_upsert_route tool args resp hd hk hb htool]
  simp only [handleUpsert, upsertNote]
  constructor
  · intro h
    rw [if_pos h]
  · intro h
    rw [if_neg h, if_neg h]
    cases ho : respOk resp
    · rw [if_neg (by decide : ¬(false = true))]
      exact ⟨_, rfl, rfl⟩
    · rw [if_pos (rfl : true = true)]
      exact ⟨_, rfl, rfl⟩

/-- Claim C4, witness: `upsert_blinko_todo` with `content = "buy milk"`
sends `{content: "buy milk", type: 2}`. -/
theorem upsert_content_validation_witness :
    (jsToString (getArg [("content", Json.str "buy milk")] "content") = "" →
      dispatch "example.com" "k" "upsert_blinko_todo"
          [("content", Json.str "buy milk")]
          ⟨200, "", Json.obj [("id", Json.num 42)]⟩ =
        ([], .error "Content is required")) ∧
    (jsToString (getArg [("content", Json.str "buy milk")] "content") ≠ "" →
      ∃ req, (dispatch "example.com" "k" "upsert_blinko_todo"
          [("content", Json.str "buy milk")]
          ⟨200, "", Json.obj [("id", Json.num 42)]⟩).1 = [req] ∧
        req.body = some (.obj
          [("content", Json.str (jsToString
              (getArg [("content", Json.str "buy milk")] "content"))),
           ("type", Json.num
             (if "upsert_blinko_todo" = "upsert_blinko_flash_note" then 0
              else if "upsert_blinko_todo" = "upsert_blinko_note" then 1
              else 2))])) :=
  upsert_content_validation "example.com" "k" "upsert_blinko_todo"
    [("content", Json.str "buy milk")]
    ⟨200, "", Json.obj [("id", Json.num 42)]⟩ (by decide) (by decide)
    (by decide)

/-- Claim C4, counterexample: invoking `upsert_blinko_flash_note` with the
`content` argument missing does not fail before the remote call — the
argument coerces to the non-empty text `"undefined"` and one upsert request
carrying that text is issued (and, against a stub returning id 42, the call
succeeds). -/
theorem upsert_missing_content_calls_remote :
    jsToString (getArg ([] : Args) "content") = "undefined" ∧
    dispatch "example.com" "k" "upsert_blinko_flash_note" []
        ⟨200, "", Json.obj [("id", Json.num 42)]⟩ =
      ([{ method := "POST", url := "https://example.com/api/v1/note/upsert",
          headers := [("Content-Type", "application/json"),
            ("Authorization", "Bearer k")],
          body := some (.obj [("content", Json.str "undefined"),
            ("type", Json.num 0)]) }],
       .ok ["Successfully wrote note to Blinko. Note ID: 42"]) :=
  ⟨rfl, rfl⟩

theorem noteTypeOf_lit (q : ℚ) (hq : q = 0 ∨ q = 1 ∨ q = 2) :
    noteTypeOf (JsValue.num (.fin q)) = q := by
  rcases hq with rfl | rfl | rfl <;> rfl

theorem noteTypeOf_other (t : JsValue)
    (h : ∀ q : ℚ, (q = 0 ∨ q = 1 ∨ q = 2) → t ≠ JsValue.num (.fin q)) :
    noteTypeOf t = -1 := by
  unfold noteTypeOf jsIsNumLit
  cases t <;> try rfl
  case num n =>
    cases n <;> try rfl
    case fin r =>
      have h0 : ¬(r = 0) := fun hr => h 0 (Or.inl rfl) (by rw [hr])
      have h1 : ¬(r = 1) := fun hr => h 1 (Or.inr (Or.inl rfl)) (by rw [hr])
      have h2 : ¬(r = 2) := fun hr => h 2 (Or.inr (Or.inr rfl)) (by rw [hr])
      simp [h0, h1, h2]

/-- Claim C7: every `search_blinko_notes` invocation forwards, in the remote
query body, a type filter equal to the supplied `type` argument when that
argument is strictly the number 0, 1 or 2, and equal to -1 in every other
case (omitted, another number such as 5, a string, ...). -/
theorem search_type_filter (domain apiKey : String) (args : Args)
    (resp : HttpResponse) (hd : domain ≠ "") (hk : apiKey ≠ "")
    (hst : jsToString (getArg args "searchText") ≠ "") :
    ∃ req body,
      (dispatch domain apiKey "search_blinko_notes" args resp).1 = [req] ∧
      req.body = some body ∧
      (∀ q : ℚ, (q = 0 ∨ q = 1 ∨ q = 2) →
        getArg args "type" = JsValue.num (.fin q) →
        jsonField body "type" = some (Json.num q)) ∧
      ((∀ q : ℚ, (q = 0 ∨ q = 1 ∨ q = 2) →
        getArg args "type" ≠ JsValue.num (.fin q)) →
        jsonField body "type" = some (Json.num (-1))) := by
  obtain ⟨b, hb⟩ := normalizeDomain_isOk hd
  rw [dispatch_search_route args resp hd hk hb]
  simp only [handleSearch, searchNotes]
  rw [if_neg hst]
  have main : ∀ rest : Except String (List String),
      ∃ req body,
        (([searchRequestOf ⟨b, apiKey⟩
            { size := if jsNumTruthy (jsToNumber (getArg args "size")) = true
                then some (jsToNumber (getArg args "size")) else none,
              type := some (noteTypeOf (getArg args "type")),
              isArchived := some (jsTruthy (getArg args "isArchived")),
              isRecycle := some (jsTruthy (getArg args "isRecycle")),
              searchText := jsToString (getArg args "searchText"),
              isUseAiQuery := some (!(jsIsFalse (getArg args "isUseAiQuery"))),
              startDate := some (if jsTruthy (getArg args "startDate") = true
                then some (jsToString (getArg args "startDate")) else none),
              endDate := some (if jsTruthy (getArg args "endDate") = true
                then some (jsToString (getArg args "endDate")) else none),
              hasTodo := some (jsTruthy (getArg args "hasTodo")) }],
          rest) : ToolResult).1 = [req] ∧
        req.body = some body ∧
        (∀ q : ℚ, (q = 0 ∨ q = 1 ∨ q = 2) →
          getArg args "type" = JsValue.num (.fin q) →
          jsonField body "type" = some (Json.num q)) ∧
        ((∀ q : ℚ, (q = 0 ∨ q = 1 ∨ q = 2) →
          getArg args "type" ≠ JsValue.num (.fin q)) →
          jsonField body "type" = some (Json.num (-1))) := by
    intro rest
    refine ⟨_, _, rfl, rfl, ?_, ?_⟩
    · intro q hq ht
      have hnt : noteTypeOf (getArg args "type") = q := by
        rw [ht]; exact noteTypeOf_lit q hq
      show some (Json.num (noteTypeOf (getArg args "type"))) =
        some (Json.num q)
      rw [hnt]
    · intro hother
      have hnt : noteTypeOf (getArg args "type") = -1 :=
        noteTypeOf_other _ hother
      show some (Json.num (noteTypeOf (getArg args "type"))) =
        some (Json.num (-1))
      rw [hnt]
  cases ho : respOk resp
  · rw [if_neg (by decide : ¬(false = true))]
    exact main _
  · rw [if_pos (rfl : true = true)]
    exact main _

/-- Claim C7, witness: with `type = 5` supplied (an invalid value) the
forwarded filter is -1, at a concrete invocation. -/
theorem search_type_filter_witness :
    ∃ req body,
      (dispatch "example.com" "k" "search_blinko_notes"
        [("searchText", Json.str "project"), ("type", Json.num 5)]
        ⟨200, "", Json.arr []⟩).1 = [req] ∧
      req.body = some body ∧
      (∀ q : ℚ, (q = 0 ∨ q = 1 ∨ q = 2) →
        getArg [("searchText", Json.str "project"), ("type", Json.num 5)]
          "type" = JsValue.num (.fin q) →
        jsonField body "type" = some (Json.num q)) ∧
      ((∀ q : ℚ, (q = 0 ∨ q = 1 ∨ q = 2) →
        getArg [("searchText", Json.str "project"), ("type", Json.num 5)]
          "type" ≠ JsValue.num (.fin q)) →
        jsonField body "type" = some (Json.num (-1))) :=
  search_type_filter "example.com" "k"
    [("searchText", Json.str "project"), ("type", Json.num 5)]
    ⟨200, "", Json.arr []⟩ (by decide) (by decide) (by decide)

theorem strAppend_assoc (a b c : String) : (a ++ b) ++ c = a ++ (b ++ c) := by
  apply strEq_of_data
  simp [List.append_assoc]

theorem strAppend_right_empty (a : String) : a ++ "" = a := by
  apply strEq_of_data
  simp

theorem contains_status_body (pre s m t : String) :
    containsStr (pre ++ s ++ m ++ t) s ∧ containsStr (pre ++ s ++ m ++ t) t :=
  ⟨⟨pre, m ++ t, strAppend_assoc (pre ++ s) m t⟩,
   ⟨pre ++ s ++ m, "", (strAppend_right_empty _).symm⟩⟩

/-- Claim C8: for every client operation and every non-2xx response, the
operation fails with a message containing both the decimal status code and
the raw response body text. -/
theorem non2xx_error_contains_status_and_body (c : BlinkoClient)
    (resp : HttpResponse) (hresp : respOk resp = false)
    (p : SearchNotesParams) (content : String) (ty : ℚ)
    (hcontent : content ≠ "") (n m : JsNumber)
    (updates : List (String × Json)) (isCancel : Option Bool)
    (password : Option String) :
    (∃ msg, (searchNotes c p resp).2 = .error msg ∧
      containsStr msg (Nat.repr resp.status) ∧ containsStr msg resp.text) ∧
    (∃ msg, (getDailyReviewNotes c resp).2 = .error msg ∧
      containsStr msg (Nat.repr resp.status) ∧ containsStr msg resp.text) ∧
    (∃ msg, (clearRecycleBin c resp).2 = .error msg ∧
      containsStr msg (Nat.repr resp.status) ∧ containsStr msg resp.text) ∧
    (∃ msg, (upsertNote c content ty resp).2 = .error msg ∧
      containsStr msg (Nat.repr resp.status) ∧ containsStr msg resp.text) ∧
    (∃ msg, (updateNote c n updates resp).2 = .error msg ∧
      containsStr msg (Nat.repr resp.status) ∧ containsStr msg resp.text) ∧
    (∃ msg, (deleteNote c m resp).2 = .error msg ∧
      containsStr msg (Nat.repr resp.status) ∧ containsStr msg resp.text) ∧
    (∃ msg, (archiveNote c n resp).2 = .error msg ∧
      containsStr msg (Nat.repr resp.status) ∧ containsStr msg resp.text) ∧
    (∃ msg, (shareNote c n isCancel password resp).2 = .error msg ∧
      containsStr msg (Nat.repr resp.status) ∧ containsStr msg resp.text) := by
  refine
    ⟨⟨genericErrMsg resp, ?_,
        (contains_status_body "request failed with status "
          (Nat.repr resp.status) ": " resp.text).1,
        (contains_status_body "request failed with status "
          (Nat.repr resp.status) ": " resp.text).2⟩,
     ⟨genericErrMsg resp, ?_,
        (contains_status_body "request failed with status "
          (Nat.repr resp.status) ": " resp.text).1,
        (contains_status_body "request failed with status "
          (Nat.repr resp.status) ": " resp.text).2⟩,
     ⟨genericErrMsg resp, ?_,
        (contains_status_body "request failed with status "
          (Nat.repr resp.status) ": " resp.text).1,
        (contains_status_body "request failed with status "
          (Nat.repr resp.status) ": " resp.text).2⟩,
     ⟨genericErrMsg resp, ?_,
        (contains_status_body "request failed with status "
          (Nat.repr resp.status) ": " resp.text).1,
        (contains_status_body "request failed with status "
          (Nat.repr resp.status) ": " resp.text).2⟩,
     ⟨updateErrMsg resp, ?_,
        (contains_status_body "Failed to update note: "
          (Nat.repr resp.status) ": " resp.text).1,
        (contains_status_body "Failed to update note: "
          (Nat.repr resp.status) ": " resp.text).2⟩,
     ⟨deleteErrMsg resp, ?_,
        (contains_status_body "Failed to delete note: "
          (Nat.repr resp.status) ": " resp.text).1,
        (contains_status_body "Failed to delete note: "
          (Nat.repr resp.status) ": " resp.text).2⟩,
     ⟨updateErrMsg resp, ?_,
        (contains_status_body "Failed to update note: "
          (Nat.repr resp.status) ": " resp.text).1,
        (contains_status_body "Failed to update note: "
          (Nat.repr resp.status) ": " resp.text).2⟩,
     ⟨genericErrMsg resp, ?_,
        (contains_status_body "request failed with status "
          (Nat.repr resp.status) ": " resp.text).1,
        (contains_status_body "request failed with status "
          (Nat.repr resp.status) ": " resp.text).2⟩⟩
  · simp only [searchNotes]
    rw [hresp, if_neg (by decide : ¬(false = true))]
  · simp only [getDailyReviewNotes]
    rw [hresp, if_neg (by decide : ¬(false = true))]
  · simp only [clearRecycleBin]
    rw [hresp, if_neg (by decide : ¬(false = true))]
  · simp only [upsertNote]
    rw [if_neg hcontent, hresp, if_neg (by decide : ¬(false = true))]
  · simp only [updateNote]
    rw [hresp, if_neg (by decide : ¬(false = true))]
  · simp only [deleteNote]
    rw [hresp, if_neg (by decide : ¬(false = true))]
  · simp only [archiveNote, updateNote]
    rw [hresp, if_neg (by decide : ¬(false = true))]
  · simp only [shareNote]
    rw [hresp, if_neg (by decide : ¬(false = true))]

/-- Claim C8, witness: a 404 response with body `note not found` produces,
for every operation, an error message containing both `404` and
`note not found`. -/
theorem non2xx_error_contains_status_and_body_witness :
    (∃ msg, (searchNotes ⟨"https://example.com", "k"⟩
        ⟨none, none, none, none, "q", none, none, none, none⟩
        ⟨404, "note not found", Json.null⟩).2 = .error msg ∧
      containsStr msg (Nat.repr (404 : ℕ)) ∧
      containsStr msg "note not found") ∧
    (∃ msg, (getDailyReviewNotes ⟨"https://example.com", "k"⟩
        ⟨404, "note not found", Json.null⟩).2 = .error msg ∧
      containsStr msg (Nat.repr (404 : ℕ)) ∧
      containsStr msg "note not found") ∧
    (∃ msg, (clearRecycleBin ⟨"https://example.com", "k"⟩
        ⟨404, "note not found", Json.null⟩).2 = .error msg ∧
      containsStr msg (Nat.repr (404 : ℕ)) ∧
      containsStr msg "note not found") ∧
    (∃ msg, (upsertNote ⟨"https://example.com", "k"⟩ "hi" 2
        ⟨404, "note not found", Json.null⟩).2 = .error msg ∧
      containsStr msg (Nat.repr (404 : ℕ)) ∧
      containsStr msg "note not found") ∧
    (∃ msg, (updateNote ⟨"https://example.com", "k"⟩ (.fin 7) []
        ⟨404, "note not found", Json.null⟩).2 = .error msg ∧
      containsStr msg (Nat.repr (404 : ℕ)) ∧
      containsStr msg "note not found") ∧
    (∃ msg, (deleteNote ⟨"https://example.com", "k"⟩ (.fin 8)
        ⟨404, "note not found", Json.null⟩).2 = .error msg ∧
      containsStr msg (Nat.repr (404 : ℕ)) ∧
      containsStr msg "note not found") ∧
    (∃ msg, (archiveNote ⟨"https://example.com", "k"⟩ (.fin 7)
        ⟨404, "note not found", Json.null⟩).2 = .error msg ∧
      containsStr msg (Nat.repr (404 : ℕ)) ∧
      containsStr msg "note not found") ∧
    (∃ msg, (shareNote ⟨"https://example.com", "k"⟩ (.fin 7) (some false)
        (some "") ⟨404, "note not found", Json.null⟩).2 = .error msg ∧
      containsStr msg (Nat.repr (404 : ℕ)) ∧
      containsStr msg "note not found") :=
  non2xx_error_contains_status_and_body ⟨"https://example.com", "k"⟩
    ⟨404, "note not found", Json.null⟩ (by decide)
    ⟨none, none, none, none, "q", none, none, none, none⟩ "hi" 2 (by decide)
    (.fin 7) (.fin 8) [] (some false) (some "")

theorem handleUpsert_valid (c : BlinkoClient) (tool : String) (args : Args)
    (resp : HttpResponse) (h : jsToString (getArg args "content") ≠ "") :
    (handleUpsert c tool args resp).1 =
      [upsertRequestOf c (jsToString (getArg args "content"))
        (if tool = "upsert_blinko_flash_note" then 0
         else if tool = "upsert_blinko_note" then 1 else 2)] := by
  simp only [handleUpsert, upsertNote]
  rw [if_neg h, if_neg h]
  cases ho : respOk resp
  · rw [if_neg (by decide : ¬(false = true))]
  · rw [if_pos (rfl : true = true)]

/-- Claim C9 (amended): the three upsert tools always send a `type` in
`{0, 1, 2}`; `update_blinko_note`, however, forwards `Number(type)` without
validation, so whenever a `type` argument is supplied the coerced value —
whatever it is — appears in the update payload.  The invariant therefore
holds for creations but not for updates. -/
theorem write_type_values (domain apiKey tool : String) (args args2 : Args)
    (resp : HttpResponse) (hd : domain ≠ "") (hk : apiKey ≠ "")
    (htool : tool = "upsert_blinko_flash_note" ∨ tool = "upsert_blinko_note" ∨
      tool = "upsert_blinko_todo")
    (hcontent : jsToString (getArg args "content") ≠ "")
    (hn : jsNumTruthy (jsToNumber (getArg args2 "noteId")) = true)
    (htype : (getArg args2 "type").isUndef = false) :
    (∃ req q, (dispatch domain apiKey tool args resp).1 = [req] ∧
      req.body = some (.obj
        [("content", Json.str (jsToString (getArg args "content"))),
         ("type", Json.num q)]) ∧
      (q = 0 ∨ q = 1 ∨ q = 2)) ∧
    (∃ req,
      (dispatch domain apiKey "update_blinko_note" args2 resp).1 = [req] ∧
      req.body = some (.obj [("0", .obj [("json", .obj
        (("id", jsonOfNumber (jsToNumber (getArg args2 "noteId"))) ::
          updatesOf args2))])]) ∧
      ("type", jsonOfNumber (jsToNumber (getArg args2 "type"))) ∈
        updatesOf args2) := by
  obtain ⟨b, hb⟩ := normalizeDomain_isOk hd
  constructor
  · rcases htool with rfl | rfl | rfl
    · rw [dispatch_upsert_route _ args resp hd hk hb (Or.inl rfl)]
      exact ⟨_, _, handleUpsert_valid _ _ _ _ hcontent, rfl, by decide⟩
    · rw [dispatch_upsert_route _ args resp hd hk hb (Or.inr (Or.inl rfl))]
      exact ⟨_, _, handleUpsert_valid _ _ _ _ hcontent, rfl, by decide⟩
    · rw [dispatch_upsert_route _ args resp hd hk hb (Or.inr (Or.inr rfl))]
      exact ⟨_, _, handleUpsert_valid _ _ _ _ hcontent, rfl, by decide⟩
  · rw [dispatch_update_route args2 resp hd hk hb]
    refine ⟨_, handleUpdate_valid _ _ _ hn, rfl, ?_⟩
    unfold updatesOf
    rw [htype]
    simp

/-- Claim C9, witness: `upsert_blinko_todo` sends type 2, and
`update_blinko_note` with `type = 5` supplied forwards 5 in the payload. -/
theorem write_type_values_witness :
    (∃ req q, (dispatch "example.com" "k" "upsert_blinko_todo"
        [("content", Json.str "x")] ⟨200, "", Json.null⟩).1 = [req] ∧
      req.body = some (.obj
        [("content", Json.str (jsToString
            (getArg [("content", Json.str "x")] "content"))),
         ("type", Json.num q)]) ∧
      (q = 0 ∨ q = 1 ∨ q = 2)) ∧
    (∃ req,
      (dispatch "example.com" "k" "update_blinko_note"
        [("noteId", Json.num 7), ("type", Json.num 5)]
        ⟨200, "", Json.null⟩).1 = [req] ∧
      req.body = some (.obj [("0", .obj [("json", .obj
        (("id", jsonOfNumber (jsToNumber
            (getArg [("noteId", Json.num 7), ("type", Json.num 5)]
              "noteId"))) ::
          updatesOf [("noteId", Json.num 7), ("type", Json.num 5)]))])]) ∧
      ("type", jsonOfNumber (jsToNumber
          (getArg [("noteId", Json.num 7), ("type", Json.num 5)] "type"))) ∈
        updatesOf [("noteId", Json.num 7), ("type", Json.num 5)]) :=
  write_type_values "example.com" "k" "upsert_blinko_todo"
    [("content", Json.str "x")] [("noteId", Json.num 7), ("type", Json.num 5)]
    ⟨200, "", Json.null⟩ (by decide) (by decide) (by decide) (by decide)
    (by decide) (by decide)

/-- Claim C9, counterexample: `update_blinko_note` with `type = 5` sends the
out-of-range value 5 to the remote service, so not every write carries a
type in `{0, 1, 2}`. -/
theorem update_type_five_sent :
    (dispatch "example.com" "k" "update_blinko_note"
      [("noteId", Json.num 7), ("type", Json.num 5)]
      ⟨200, "", Json.null⟩).1 =
      [{ method := "POST",
         url := "https://example.com/api/trpc/notes.upsert?batch=1",
         headers := [("Content-Type", "application/json"),
           ("Authorization", "Bearer k")],
         body := some (.obj [("0", .obj [("json", .obj
           [("id", Json.num 7), ("type", Json.num 5)])])]) }] ∧
    ¬((5 : ℚ) = 0 ∨ (5 : ℚ) = 1 ∨ (5 : ℚ) = 2) :=
  ⟨rfl, by decide⟩

/-- Claim C2 (code bug): a note whose `createdAt`/`updatedAt` is the
unparseable string `"not-a-date"` renders as the literal `"Invalid Date"` —
not as the raw string, because ECMA-402 `toLocaleString` on an invalid
`Date` returns that string instead of throwing, so the `catch` fallback
returning the raw string is unreachable.  The tool call itself still
succeeds. -/
theorem invalid_timestamp_renders_invalid_date :
    formatDate (JsValue.str "not-a-date") = "Invalid Date" ∧
    "Invalid Date" ≠ "not-a-date" ∧
    (dispatch "example.com" "k" "search_blinko_notes"
      [("searchText", Json.str "x")]
      ⟨200, "", Json.arr [Json.obj [("id", Json.num 1), ("type", Json.num 0),
        ("content", Json.str "hi"), ("createdAt", Json.str "not-a-date"),
        ("updatedAt", Json.str "not-a-date")]]⟩).2 =
      .ok ["Found 1 note(s):",
        "- [ID: 1] [Flash Note] hi\n  Created: Invalid Date | Updated: Invalid Date"] ∧
    (dispatch "example.com" "k" "review_blinko_daily_notes" []
      ⟨200, "", Json.arr [Json.obj [("id", Json.num 1), ("type", Json.num 0),
        ("content", Json.str "hi"), ("createdAt", Json.str "not-a-date"),
        ("updatedAt", Json.str "not-a-date")]]⟩).2 =
      .ok ["Found 1 note(s) for today's review:",
        "- [ID: 1] [Flash Note] hi\n  Created: Invalid Date | Updated: Invalid Date"] :=
  ⟨rfl, by decide, rfl, rfl⟩

end Blinko
